import Mathlib

/-!
Shallow embedding of the SCD41 sensor driver (`src/scd41.rs`) from the
`raspi-scd41-exporter` repository.

The driver talks to the sensor over an I2C bus.  We model the bus transport
as a pure oracle (`Transport`): the result of a write with given address and
bytes, and the result of a read request of a given length.  Each driver
operation is embedded as a pure function from a transport to a pair of
(result, trace of bus actions); the trace records every write, sleep and
read the operation performs, in order.

The helper crate `sensirion-i2c` (functions `crc8::calculate`,
`read_words_with_crc`, `write_command_u16` and the error enum `Error`) is a
dependency whose source is not part of this repository; those pieces are
modelled from the spec (see the doc comments starting `Modelled from the
spec:`).

Rust `f32` arithmetic on the conversion formulas is modelled as exact
rational arithmetic over `ℚ`; the concrete inputs used in counterexamples
and witnesses are chosen so that the corresponding `f32` computation is
exact (all intermediate values are integers below `2^24`).
-/

namespace Scd41

/-- One bus-level action performed by a driver operation, in the order the
Rust code performs them: an I2C write of a byte sequence to an address, a
thread sleep of some number of milliseconds, or an I2C read request of a
fixed buffer length from an address. -/
inductive Action where
  | write (addr : Nat) (bytes : List Nat)
  | sleepMs (ms : Nat)
  | read (addr : Nat) (len : Nat)
deriving DecidableEq, Repr

/-- A pure oracle for the injected bus transport: what a write of the given
bytes to the given address returns, and what a read request of the given
length from the given address returns (an error, or the bytes filling the
buffer).  `E` is the transport's error type (`I::Error` in the Rust code). -/
structure Transport (E : Type) where
  writeRes : Nat → List Nat → Except E Unit
  readRes : Nat → Nat → Except E (List Nat)

/-- Modelled from the spec: the error enum `Error` of the `sensirion-i2c`
helper crate (not under `src/`).  The spec's two-kind taxonomy distinguishes
a write-error (command transmission failed) from the read/protocol errors
(transport read failure, per-word checksum mismatch with the failing word
index retrievable, malformed wrong-length buffer). -/
inductive DriverError (E : Type) where
  | i2cWrite (e : E)
  | i2cRead (e : E)
  | crc (wordIndex : Nat)
  | wrongBufferSize
deriving DecidableEq, Repr

/-- The word index available for diagnostics from a checksum error. -/
def failingWordIndex {E : Type} : DriverError E → Option Nat
  | .crc i => some i
  | _ => none

/-- Whether an error is the write-error kind. -/
def DriverError.isWriteError {E : Type} : DriverError E → Bool
  | .i2cWrite _ => true
  | _ => false

namespace crc8

/-- One shift-and-conditionally-xor round of the Sensirion CRC-8
(polynomial 0x31), on an 8-bit accumulator. -/
def shiftRound (c : Nat) : Nat :=
  if 128 ≤ c % 256 then ((c % 256) * 2) % 256 ^^^ 0x31 else ((c % 256) * 2) % 256

/-- Absorb one input byte into the CRC accumulator: xor it in, then run
eight shift rounds. -/
def absorbByte (c b : Nat) : Nat := shiftRound^[8] ((c ^^^ b) % 256)

/-- Modelled from the spec: `crc8::calculate` of the `sensirion-i2c` crate
(not under `src/`) — the sensor vendor's designated 8-bit CRC
(polynomial-based, initial value 0xFF) computed over exactly the given
bytes; a stateless pure function. -/
def calculate (data : List Nat) : Nat := data.foldl absorbByte 0xFF

/-- Modelled from the spec: the Checksum Engine's verification direction —
given a word's bytes and a purported checksum byte, report whether they
match. -/
def verify (data : List Nat) (cksum : Nat) : Bool := calculate data == cksum

end crc8

/-- Modelled from the spec: the per-word checksum validation loop of
`sensirion-i2c`'s response decoding (not under `src/`): walk the buffer in
3-byte chunks (2 data bytes + 1 checksum byte per word), failing with the
index of the first word whose checksum byte does not match. -/
def validateChunks {E : Type} : Nat → List Nat → Except (DriverError E) Unit
  | _, [] => .ok ()
  | i, a :: b :: c :: rest =>
      if crc8.calculate [a, b] = c then validateChunks (i + 1) rest
      else .error (.crc i)
  | _, _ => .error .wrongBufferSize

/-- Modelled from the spec: response-buffer validation of `sensirion-i2c`
(not under `src/`): a buffer whose length is not a multiple of 3 bytes is a
protocol violation; otherwise every word's checksum byte is checked. -/
def validate {E : Type} (buf : List Nat) : Except (DriverError E) Unit :=
  if buf.length % 3 = 0 then validateChunks 0 buf else .error .wrongBufferSize

/-- Big-endian byte serialization of a 16-bit word, as `u16::to_be_bytes`. -/
def u16BeBytes (w : Nat) : List Nat := [w / 256 % 256, w % 256]

/-- The fixed I2C device address `SCD41_I2C_ADDR` (`src/scd41.rs` line 8). -/
def SCD41_I2C_ADDR : Nat := 0x62

/-- Modelled from the spec: `write_command_u16` of `sensirion-i2c` (not
under `src/`) — the 16-bit command code is serialized as 2 big-endian bytes
and written to the device address in a single bus write. -/
def write_command_u16 {E : Type} (t : Transport E) (cmd : Nat) :
    Except E Unit × List Action :=
  (t.writeRes SCD41_I2C_ADDR (u16BeBytes cmd),
   [Action.write SCD41_I2C_ADDR (u16BeBytes cmd)])

/-- Modelled from the spec: `read_words_with_crc` of `sensirion-i2c` (not
under `src/`) — issue a bus read filling a buffer of the given length, then
validate every word's checksum; a transport read failure is a read-error,
distinct from the write-error kind. -/
def read_words_with_crc {E : Type} (t : Transport E) (len : Nat) :
    Except (DriverError E) (List Nat) × List Action :=
  (match t.readRes SCD41_I2C_ADDR len with
   | .error e => .error (.i2cRead e)
   | .ok buf =>
     match @validate E buf with
     | .error er => .error er
     | .ok _ => .ok buf,
   [Action.read SCD41_I2C_ADDR len])

/-- The `Measurement` struct (`src/scd41.rs` lines 10-14): CO2 in raw ppm
counts, temperature and humidity after conversion (`f32` modelled as `ℚ`). -/
structure Measurement where
  co2 : Nat
  temperature : ℚ
  humidity : ℚ
deriving DecidableEq, Repr

/-- Rust `wakeup` (`src/scd41.rs` lines 24-28): write command 0x36F6, sleep
30 ms.  Returns the raw transport error on write failure. -/
def wakeup {E : Type} (t : Transport E) : Except E Unit × List Action :=
  match write_command_u16 t 0x36F6 with
  | (.error e, tr) => (.error e, tr)
  | (.ok _, tr) => (.ok (), tr ++ [Action.sleepMs 30])

/-- Rust `start_periodic_measurement` (`src/scd41.rs` lines 31-35): write
command 0x21B1, sleep 1 ms. -/
def start_periodic_measurement {E : Type} (t : Transport E) :
    Except E Unit × List Action :=
  match write_command_u16 t 0x21B1 with
  | (.error e, tr) => (.error e, tr)
  | (.ok _, tr) => (.ok (), tr ++ [Action.sleepMs 1])

/-- Rust `stop_periodic_measurement` (`src/scd41.rs` lines 38-42): write command
0x3F86, sleep 500 ms. -/
def stop_periodic_measurement {E : Type} (t : Transport E) :
    Except E Unit × List Action :=
  match write_command_u16 t 0x3F86 with
  | (.error e, tr) => (.error e, tr)
  | (.ok _, tr) => (.ok (), tr ++ [Action.sleepMs 500])

/-- Rust `reinit` (`src/scd41.rs` lines 45-49): write command 0x3646, sleep
30 ms. -/
def reinit {E : Type} (t : Transport E) : Except E Unit × List Action :=
  match write_command_u16 t 0x3646 with
  | (.error e, tr) => (.error e, tr)
  | (.ok _, tr) => (.ok (), tr ++ [Action.sleepMs 30])

/-- Rust `clean_state` (`src/scd41.rs` lines 17-21): attempt `wakeup`, then
`stop_periodic_measurement`, then `reinit`, in that order; each result is
discarded (only logged), so the function always returns unit. -/
def clean_state {E : Type} (t : Transport E) : Unit × List Action :=
  ((), (wakeup t).2 ++ (stop_periodic_measurement t).2 ++ (reinit t).2)

/-- Rust `read_serial` (`src/scd41.rs` lines 52-65): write command 0x3682
(write failure mapped to the write-error kind), sleep 1 ms, read a 9-byte
buffer with checksum validation, then assemble the serial from the data
bytes at positions 0,1,3,4,6,7 by shifts and bitwise or. -/
def read_serial {E : Type} (t : Transport E) :
    Except (DriverError E) Nat × List Action :=
  match write_command_u16 t 0x3682 with
  | (.error e, tr) => (.error (.i2cWrite e), tr)
  | (.ok _, tr) =>
    let tr := tr ++ [Action.sleepMs 1]
    match read_words_with_crc t 9 with
    | (.error e, tr2) => (.error e, tr ++ tr2)
    | (.ok buf, tr2) =>
      (.ok ((buf.getD 0 0 <<< 40) ||| (buf.getD 1 0 <<< 32) |||
            (buf.getD 3 0 <<< 24) ||| (buf.getD 4 0 <<< 16) |||
            (buf.getD 6 0 <<< 8) ||| buf.getD 7 0),
       tr ++ tr2)

/-- Rust `get_data_ready_status` (`src/scd41.rs` lines 68-77): write command
0xE4B8, sleep 1 ms, read a 3-byte buffer with checksum validation, assemble
the big-endian status word, and report whether its low 11 bits
(`status & 0x7FF`) are non-zero. -/
def get_data_ready_status {E : Type} (t : Transport E) :
    Except (DriverError E) Bool × List Action :=
  match write_command_u16 t 0xE4B8 with
  | (.error e, tr) => (.error (.i2cWrite e), tr)
  | (.ok _, tr) =>
    let tr := tr ++ [Action.sleepMs 1]
    match read_words_with_crc t 3 with
    | (.error e, tr2) => (.error e, tr ++ tr2)
    | (.ok buf, tr2) =>
      let status := (buf.getD 0 0 <<< 8) ||| buf.getD 1 0
      (.ok (decide ((status &&& 0x7FF) ≠ 0)), tr ++ tr2)

/-- Rust `read_measurement` (`src/scd41.rs` lines 80-96): write command 0xEC05,
sleep 1 ms, read a 9-byte buffer with checksum validation, then build a
`Measurement` from the three big-endian raw words:
CO2 is the raw count, temperature is `raw * 175 / 65535 - 45` and humidity
is `raw * 100 / 65535` (`f32` arithmetic modelled over `ℚ`). -/
def read_measurement {E : Type} (t : Transport E) :
    Except (DriverError E) Measurement × List Action :=
  match write_command_u16 t 0xEC05 with
  | (.error e, tr) => (.error (.i2cWrite e), tr)
  | (.ok _, tr) =>
    let tr := tr ++ [Action.sleepMs 1]
    match read_words_with_crc t 9 with
    | (.error e, tr2) => (.error e, tr ++ tr2)
    | (.ok buf, tr2) =>
      let rawCo2 := (buf.getD 0 0 <<< 8) ||| buf.getD 1 0
      let rawTemperature := (buf.getD 3 0 <<< 8) ||| buf.getD 4 0
      let rawHumidity := (buf.getD 6 0 <<< 8) ||| buf.getD 7 0
      (.ok { co2 := rawCo2,
             temperature := (rawTemperature : ℚ) * 175 / 65535 - 45,
             humidity := (rawHumidity : ℚ) * 100 / 65535 },
       tr ++ tr2)

/-- Rust `get_temperature_offset` (`src/scd41.rs` lines 100-108): write command
0x2318, sleep 1 ms, read a 3-byte buffer with checksum validation, and
convert the big-endian raw word by `raw * 175 / 65535` (`f32` modelled as
`ℚ`). -/
def get_temperature_offset {E : Type} (t : Transport E) :
    Except (DriverError E) ℚ × List Action :=
  match write_command_u16 t 0x2318 with
  | (.error e, tr) => (.error (.i2cWrite e), tr)
  | (.ok _, tr) =>
    let tr := tr ++ [Action.sleepMs 1]
    match read_words_with_crc t 3 with
    | (.error e, tr2) => (.error e, tr ++ tr2)
    | (.ok buf, tr2) =>
      let offset := (buf.getD 0 0 <<< 8) ||| buf.getD 1 0
      (.ok ((offset : ℚ) * 175 / 65535), tr ++ tr2)

/-- An `f32` argument value: NaN, a signed infinity, or a finite value
(carried exactly as a rational; `f32` rounding of arithmetic on finite
values is abstracted as exact). -/
inductive F32Val where
  | nan
  | inf (negative : Bool)
  | finite (q : ℚ)
deriving DecidableEq, Repr

/-- The scaling `offset * 65535_f32 / 175_f32` from `set_temperature_offset`
(`src/scd41.rs` line 112): NaN and infinities propagate through `f32`
multiplication and division by the positive constants; finite values are
scaled exactly. -/
def scaleOffset : F32Val → F32Val
  | .nan => .nan
  | .inf s => .inf s
  | .finite q => .finite (q * 65535 / 175)

/-- The Rust saturating cast `as u16` on an `f32` value
(`src/scd41.rs` line 113): NaN and values at most 0 give 0, +∞ and values
at least 65535 give 65535, and a finite in-range positive value is
truncated toward zero. -/
def rustCastU16 : F32Val → Nat
  | .nan => 0
  | .inf true => 0
  | .inf false => 65535
  | .finite q => if q ≤ 0 then 0 else min 65535 ⌊q⌋.toNat

/-- The 5-byte payload built by Rust `set_temperature_offset`
(`src/scd41.rs` lines 111-120): the command 0x241D as 2 big-endian bytes,
the raw word (the offset scaled by `65535 / 175` and cast to `u16`) as 2
big-endian bytes, and one checksum byte over those 2 data bytes. -/
def setTempPayload (offset : F32Val) : List Nat :=
  u16BeBytes 0x241D ++ u16BeBytes (rustCastU16 (scaleOffset offset)) ++
    [crc8.calculate (u16BeBytes (rustCastU16 (scaleOffset offset)))]

/-- Rust `set_temperature_offset`, continued: the single 5-byte bus write of
the payload; a transport failure is the write-error kind; no sleep and no
read happen in either case. -/
def set_temperature_offset {E : Type} (t : Transport E) (offset : F32Val) :
    Except (DriverError E) Unit × List Action :=
  match t.writeRes SCD41_I2C_ADDR (setTempPayload offset) with
  | .error e => (.error (.i2cWrite e), [Action.write SCD41_I2C_ADDR (setTempPayload offset)])
  | .ok _ => (.ok (), [Action.write SCD41_I2C_ADDR (setTempPayload offset)])

/-- The spec's written temperature-conversion formula
(`rawB * 175 / 65536 - 45`), to be compared against the code's. -/
def spec_temperature (raw : Nat) : ℚ := (raw : ℚ) * 175 / 65536 - 45

/-- The spec's written humidity-conversion formula (`rawC * 100 / 65536`),
to be compared against the code's. -/
def spec_humidity (raw : Nat) : ℚ := (raw : ℚ) * 100 / 65536

/-- The byte payloads of the write actions of a trace, in order. -/
def writeActions (tr : List Action) : List (List Nat) :=
  tr.filterMap fun a => match a with
    | .write _ bytes => some bytes
    | _ => none

/-- The requested lengths of the read actions of a trace, in order. -/
def readLens (tr : List Action) : List Nat :=
  tr.filterMap fun a => match a with
    | .read _ n => some n
    | _ => none

/-- A stub transport whose writes all succeed and whose reads all return
the given buffer. -/
def stubTransport (buf : List Nat) : Transport Nat :=
  ⟨fun _ _ => .ok (), fun _ _ => .ok buf⟩

/-- A stub transport that fails every write and every read with transport
error 7. -/
def failTransport : Transport Nat :=
  ⟨fun _ _ => .error 7, fun _ _ => .error 7⟩

/-- A stub transport answering reads with an all-zero-words measurement
buffer (each word 0x0000 with its correct checksum byte 0x81). -/
def zeroWordsTransport : Transport Nat :=
  stubTransport [0x00, 0x00, 0x81, 0x00, 0x00, 0x81, 0x00, 0x00, 0x81]

/-- A stub transport answering reads with a measurement buffer whose CO2
word is 0x0000 and whose temperature and humidity words are both 0xFFFF,
all with correct checksum bytes. -/
def maxWordsTransport : Transport Nat :=
  stubTransport [0x00, 0x00, 0x81, 0xFF, 0xFF, 0xAC, 0xFF, 0xFF, 0xAC]

/-- A stub transport answering reads with the serial buffer whose three
data words are all 0xBEEF (checksum byte 0x92, the datasheet's example). -/
def beefTransport : Transport Nat :=
  stubTransport [0xBE, 0xEF, 0x92, 0xBE, 0xEF, 0x92, 0xBE, 0xEF, 0x92]

/-- A stub transport answering reads with a buffer whose middle word's
checksum byte is wrong (0x00 instead of 0x81). -/
def badCrcTransport : Transport Nat :=
  stubTransport [0x00, 0x00, 0x81, 0x00, 0x00, 0x00, 0x00, 0x00, 0x81]

end Scd41

deriving instance DecidableEq for Except

namespace Scd41

lemma byte_word_eq (a b : Nat) (hb : b < 256) : (a <<< 8) ||| b = a * 256 + b := by
  have h := Nat.mul_add_lt_is_or (show b < 2^8 from hb) a
  rw [Nat.shiftLeft_eq]
  rw [Nat.mul_comm a (2^8), ← h]

lemma assemble_serial_eq (b0 b1 b3 b4 b6 b7 : Nat) (h1 : b1 < 256)
    (h3 : b3 < 256) (h4 : b4 < 256) (h6 : b6 < 256) (h7 : b7 < 256) :
    (b0 <<< 40) ||| (b1 <<< 32) ||| (b3 <<< 24) ||| (b4 <<< 16) ||| (b6 <<< 8) ||| b7 =
      b0 * 2^40 + b1 * 2^32 + b3 * 2^24 + b4 * 2^16 + b6 * 2^8 + b7 := by
  have e1 : b0 <<< 40 ||| b1 <<< 32 = 2^32 * (b0 * 2^8 + b1) := by
    rw [Nat.shiftLeft_eq, Nat.shiftLeft_eq]
    have h := Nat.mul_add_lt_is_or (show b1 * 2^32 < 2^40 by omega) b0
    rw [Nat.mul_comm b0 (2^40), ← h]
    ring
  have e2 : 2^32 * (b0 * 2^8 + b1) ||| b3 <<< 24 =
      2^24 * (b0 * 2^16 + b1 * 2^8 + b3) := by
    rw [Nat.shiftLeft_eq]
    have h := Nat.mul_add_lt_is_or (show b3 * 2^24 < 2^32 by omega) (b0 * 2^8 + b1)
    rw [← h]
    ring
  have e3 : 2^24 * (b0 * 2^16 + b1 * 2^8 + b3) ||| b4 <<< 16 =
      2^16 * (b0 * 2^24 + b1 * 2^16 + b3 * 2^8 + b4) := by
    rw [Nat.shiftLeft_eq]
    have h := Nat.mul_add_lt_is_or (show b4 * 2^16 < 2^24 by omega)
      (b0 * 2^16 + b1 * 2^8 + b3)
    rw [← h]
    ring
  have e4 : 2^16 * (b0 * 2^24 + b1 * 2^16 + b3 * 2^8 + b4) ||| b6 <<< 8 =
      2^8 * (b0 * 2^32 + b1 * 2^24 + b3 * 2^16 + b4 * 2^8 + b6) := by
    rw [Nat.shiftLeft_eq]
    have h := Nat.mul_add_lt_is_or (show b6 * 2^8 < 2^16 by omega)
      (b0 * 2^24 + b1 * 2^16 + b3 * 2^8 + b4)
    rw [← h]
    ring
  have e5 : 2^8 * (b0 * 2^32 + b1 * 2^24 + b3 * 2^16 + b4 * 2^8 + b6) ||| b7 =
      2^8 * (b0 * 2^32 + b1 * 2^24 + b3 * 2^16 + b4 * 2^8 + b6) + b7 :=
    (Nat.mul_add_lt_is_or (show b7 < 2^8 from h7)
      (b0 * 2^32 + b1 * 2^24 + b3 * 2^16 + b4 * 2^8 + b6)).symm
  rw [e1, e2, e3, e4, e5]
  ring

end Scd41

namespace Scd41

lemma xor_one_ne (x : Nat) : x ^^^ 1 ≠ x := by
  intro h
  have h2 := @Nat.xor_mod_two_eq_one x 1
  rw [h] at h2
  simp at h2
  omega

lemma validateChunks_error_kind {E : Type} (i : Nat) (buf : List Nat) :
    ∀ (er : DriverError E), validateChunks i buf = .error er →
      er.isWriteError = false ∧
        (er = .wrongBufferSize ∨ ∃ j, er = .crc j) := by
  induction i, buf using @validateChunks.induct E with
  | case1 x =>
      intro er h
      simp [validateChunks] at h
  | case2 i a b rest ih =>
      intro er h
      have e : @validateChunks E i (a :: b :: crc8.calculate [a, b] :: rest) =
          @validateChunks E (i + 1) rest := by
        simp [validateChunks]
      rw [e] at h
      exact ih er h
  | case3 i a b c rest hne =>
      intro er h
      have e : @validateChunks E i (a :: b :: c :: rest) = .error (.crc i) := by
        simp [validateChunks, hne]
      rw [e] at h
      injection h with h2
      exact h2 ▸ ⟨rfl, Or.inr ⟨i, rfl⟩⟩
  | case4 t x h1 h2 =>
      intro er h
      rcases t with _ | ⟨a, _ | ⟨b, _ | ⟨c, rest⟩⟩⟩
      · exact absurd rfl h1
      · have e : @validateChunks E x [a] = .error .wrongBufferSize := rfl
        rw [e] at h
        injection h with h2
        exact h2 ▸ ⟨rfl, Or.inl rfl⟩
      · have e : @validateChunks E x [a, b] = .error .wrongBufferSize := rfl
        rw [e] at h
        injection h with h2
        exact h2 ▸ ⟨rfl, Or.inl rfl⟩
      · exact absurd rfl (h2 a b c rest)

lemma validate_error_kind {E : Type} (buf : List Nat) (er : DriverError E)
    (h : validate buf = .error er) :
    er.isWriteError = false ∧
      (er = .wrongBufferSize ∨ ∃ j, er = .crc j) := by
  by_cases h3 : buf.length % 3 = 0
  · rw [validate, if_pos h3] at h
    exact validateChunks_error_kind 0 buf er h

  · rw [validate, if_neg h3] at h
    injection h with h2
    exact h2 ▸ ⟨rfl, Or.inl rfl⟩

lemma validateChunks_ok_cons {E : Type} (i a b c : Nat) (rest : List Nat) :
    @validateChunks E i (a :: b :: c :: rest) = .ok () ↔
      (crc8.calculate [a, b] = c ∧ @validateChunks E (i + 1) rest = .ok ()) := by
  by_cases h : crc8.calculate [a, b] = c <;> simp [validateChunks, h]

/-- C7: for every 2-byte word, verification against its own computed
checksum succeeds; verification against that checksum with its lowest bit
flipped fails; and acceptance of the word during response validation
depends only on the word's own two data bytes, whatever position index the
word occupies and whatever the rest of the message is. -/
theorem crc8_verify_ok_and_flip_fails (a b : Nat) :
    crc8.verify [a, b] (crc8.calculate [a, b]) = true ∧
    crc8.verify [a, b] (crc8.calculate [a, b] ^^^ 1) = false ∧
    (∀ (i c : Nat) (rest : List Nat),
      @validateChunks Nat i (a :: b :: c :: rest) = .ok () ↔
        (crc8.calculate [a, b] = c ∧
         @validateChunks Nat (i + 1) rest = .ok ())) := by
  refine ⟨by simp [crc8.verify], ?_, ?_⟩
  · have h := xor_one_ne (crc8.calculate [a, b])
    simp [crc8.verify]
    exact Ne.symm h
  · intro i c rest
    exact validateChunks_ok_cons i a b c rest

/-- C6: `clean_state` attempts wakeup, then stop-periodic-measurement,
then reinitialize, in that order — its bus writes are exactly the three
command writes, in that order — and it returns unit, propagating no error,
for every transport, including one that fails every step. -/
theorem clean_state_best_effort {E : Type} (t : Transport E) :
    (clean_state t).1 = () ∧
    writeActions (clean_state t).2 =
      [u16BeBytes 0x36F6, u16BeBytes 0x3F86, u16BeBytes 0x3646] := by
  refine ⟨rfl, ?_⟩
  rcases h1 : t.writeRes SCD41_I2C_ADDR (u16BeBytes 0x36F6) with e1 | u1 <;>
  rcases h2 : t.writeRes SCD41_I2C_ADDR (u16BeBytes 0x3F86) with e2 | u2 <;>
  rcases h3 : t.writeRes SCD41_I2C_ADDR (u16BeBytes 0x3646) with e3 | u3 <;>
    simp [clean_state, wakeup, stop_periodic_measurement, reinit,
      write_command_u16, writeActions, h1, h2, h3]

/-- C10: for each of the four response operations, if the initial command
write fails then the operation returns that error as the write-error kind
and its whole trace is the single failed write — no sleep is taken, no bus
read is issued and no response data is consumed. -/
theorem write_failure_short_circuits {E : Type} :
    (∀ (t : Transport E) e,
      t.writeRes SCD41_I2C_ADDR (u16BeBytes 0x3682) = .error e →
      read_serial t =
        (.error (.i2cWrite e), [.write SCD41_I2C_ADDR (u16BeBytes 0x3682)])) ∧
    (∀ (t : Transport E) e,
      t.writeRes SCD41_I2C_ADDR (u16BeBytes 0xE4B8) = .error e →
      get_data_ready_status t =
        (.error (.i2cWrite e), [.write SCD41_I2C_ADDR (u16BeBytes 0xE4B8)])) ∧
    (∀ (t : Transport E) e,
      t.writeRes SCD41_I2C_ADDR (u16BeBytes 0xEC05) = .error e →
      read_measurement t =
        (.error (.i2cWrite e), [.write SCD41_I2C_ADDR (u16BeBytes 0xEC05)])) ∧
    (∀ (t : Transport E) e,
      t.writeRes SCD41_I2C_ADDR (u16BeBytes 0x2318) = .error e →
      get_temperature_offset t =
        (.error (.i2cWrite e), [.write SCD41_I2C_ADDR (u16BeBytes 0x2318)])) := by
  refine ⟨?_, ?_, ?_, ?_⟩ <;> intro t e h <;>
    simp [read_serial, get_data_ready_status, read_measurement,
      get_temperature_offset, write_command_u16, h]

/-- Witness for C10: on the always-failing stub transport, each of the
four response operations returns the write-error with the transport's
error value and a trace of exactly one write. -/
theorem write_failure_short_circuits_witness :
    read_serial failTransport =
      (.error (.i2cWrite 7), [.write SCD41_I2C_ADDR (u16BeBytes 0x3682)]) ∧
    get_data_ready_status failTransport =
      (.error (.i2cWrite 7), [.write SCD41_I2C_ADDR (u16BeBytes 0xE4B8)]) ∧
    read_measurement failTransport =
      (.error (.i2cWrite 7), [.write SCD41_I2C_ADDR (u16BeBytes 0xEC05)]) ∧
    get_temperature_offset failTransport =
      (.error (.i2cWrite 7), [.write SCD41_I2C_ADDR (u16BeBytes 0x2318)]) :=
  ⟨write_failure_short_circuits.1 failTransport 7 rfl,
   write_failure_short_circuits.2.1 failTransport 7 rfl,
   write_failure_short_circuits.2.2.1 failTransport 7 rfl,
   write_failure_short_circuits.2.2.2 failTransport 7 rfl⟩

/-- C2: for every operation with a response, a failed command write is
surfaced as the write-error kind, which is distinct from every read/protocol
error; and when the command write succeeds but the response fails per-word
checksum validation (a mismatching word or a malformed length), the
operation surfaces exactly the validation error, which is not a write-error
and, for a checksum mismatch, carries the retrievable index of the failing
word. -/
theorem error_taxonomy_and_diagnostics {E : Type} :
    (∀ (t : Transport E) e,
      t.writeRes SCD41_I2C_ADDR (u16BeBytes 0x3682) = .error e →
      (read_serial t).1 = .error (.i2cWrite e)) ∧
    (∀ (t : Transport E) e,
      t.writeRes SCD41_I2C_ADDR (u16BeBytes 0xE4B8) = .error e →
      (get_data_ready_status t).1 = .error (.i2cWrite e)) ∧
    (∀ (t : Transport E) e,
      t.writeRes SCD41_I2C_ADDR (u16BeBytes 0xEC05) = .error e →
      (read_measurement t).1 = .error (.i2cWrite e)) ∧
    (∀ (t : Transport E) e,
      t.writeRes SCD41_I2C_ADDR (u16BeBytes 0x2318) = .error e →
      (get_temperature_offset t).1 = .error (.i2cWrite e)) ∧
    (∀ (e e' : E) (i : Nat),
      DriverError.i2cWrite e ≠ DriverError.i2cRead e' ∧
      DriverError.i2cWrite e ≠ DriverError.crc i ∧
      DriverError.i2cWrite e ≠ (DriverError.wrongBufferSize : DriverError E)) ∧
    (∀ (t : Transport E) (buf : List Nat) (er : DriverError E),
      t.writeRes SCD41_I2C_ADDR (u16BeBytes 0x3682) = .ok () →
      t.readRes SCD41_I2C_ADDR 9 = .ok buf → validate buf = .error er →
      (read_serial t).1 = .error er ∧ er.isWriteError = false ∧
        (er = .wrongBufferSize ∨
         ∃ i, er = .crc i ∧ failingWordIndex er = some i)) ∧
    (∀ (t : Transport E) (buf : List Nat) (er : DriverError E),
      t.writeRes SCD41_I2C_ADDR (u16BeBytes 0xE4B8) = .ok () →
      t.readRes SCD41_I2C_ADDR 3 = .ok buf → validate buf = .error er →
      (get_data_ready_status t).1 = .error er ∧ er.isWriteError = false ∧
        (er = .wrongBufferSize ∨
         ∃ i, er = .crc i ∧ failingWordIndex er = some i)) ∧
    (∀ (t : Transport E) (buf : List Nat) (er : DriverError E),
      t.writeRes SCD41_I2C_ADDR (u16BeBytes 0xEC05) = .ok () →
      t.readRes SCD41_I2C_ADDR 9 = .ok buf → validate buf = .error er →
      (read_measurement t).1 = .error er ∧ er.isWriteError = false ∧
        (er = .wrongBufferSize ∨
         ∃ i, er = .crc i ∧ failingWordIndex er = some i)) ∧
    (∀ (t : Transport E) (buf : List Nat) (er : DriverError E),
      t.writeRes SCD41_I2C_ADDR (u16BeBytes 0x2318) = .ok () →
      t.readRes SCD41_I2C_ADDR 3 = .ok buf → validate buf = .error er →
      (get_temperature_offset t).1 = .error er ∧ er.isWriteError = false ∧
        (er = .wrongBufferSize ∨
         ∃ i, er = .crc i ∧ failingWordIndex er = some i)) := by
  refine ⟨?_, ?_, ?_, ?_, ?_, ?_, ?_, ?_, ?_⟩
  · intro t e h
    simp [read_serial, write_command_u16, h]
  · intro t e h
    simp [get_data_ready_status, write_command_u16, h]
  · intro t e h
    simp [read_measurement, write_command_u16, h]
  · intro t e h
    simp [get_temperature_offset, write_command_u16, h]
  · intro e e' i
    refine ⟨fun h => DriverError.noConfusion h, fun h => DriverError.noConfusion h,
      fun h => DriverError.noConfusion h⟩
  · intro t buf er hw hr hv
    refine ⟨by simp [read_serial, write_command_u16, read_words_with_crc, hw, hr, hv],
      (validate_error_kind buf er hv).1, ?_⟩
    rcases (validate_error_kind buf er hv).2 with h | ⟨j, hj⟩
    · exact Or.inl h
    · exact Or.inr ⟨j, hj, by rw [hj]; rfl⟩
  · intro t buf er hw hr hv
    refine ⟨by simp [get_data_ready_status, write_command_u16, read_words_with_crc, hw, hr, hv],
      (validate_error_kind buf er hv).1, ?_⟩
    rcases (validate_error_kind buf er hv).2 with h | ⟨j, hj⟩
    · exact Or.inl h
    · exact Or.inr ⟨j, hj, by rw [hj]; rfl⟩
  · intro t buf er hw hr hv
    refine ⟨by simp [read_measurement, write_command_u16, read_words_with_crc, hw, hr, hv],
      (validate_error_kind buf er hv).1, ?_⟩
    rcases (validate_error_kind buf er hv).2 with h | ⟨j, hj⟩
    · exact Or.inl h
    · exact Or.inr ⟨j, hj, by rw [hj]; rfl⟩
  · intro t buf er hw hr hv
    refine ⟨by simp [get_temperature_offset, write_command_u16, read_words_with_crc, hw, hr, hv],
      (validate_error_kind buf er hv).1, ?_⟩
    rcases (validate_error_kind buf er hv).2 with h | ⟨j, hj⟩
    · exact Or.inl h
    · exact Or.inr ⟨j, hj, by rw [hj]; rfl⟩

/-- Witness for C2: on the always-failing stub every response operation
reports the write-error with the transport's error value; on the stub whose
middle response word has a corrupted checksum byte, `read_measurement`
reports the checksum error naming word index 1, from which the index is
retrievable; and the write-error is distinct from that checksum error. -/
theorem error_taxonomy_and_diagnostics_witness :
    (read_serial failTransport).1 = .error (.i2cWrite 7) ∧
    (get_data_ready_status failTransport).1 = .error (.i2cWrite 7) ∧
    (read_measurement failTransport).1 = .error (.i2cWrite 7) ∧
    (get_temperature_offset failTransport).1 = .error (.i2cWrite 7) ∧
    DriverError.i2cWrite 7 ≠ (DriverError.crc 1 : DriverError Nat) ∧
    (read_measurement badCrcTransport).1 = .error (.crc 1) ∧
    failingWordIndex (DriverError.crc 1 : DriverError Nat) = some 1 := by
  have h := @error_taxonomy_and_diagnostics Nat
  exact ⟨h.1 failTransport 7 rfl,
    h.2.1 failTransport 7 rfl,
    h.2.2.1 failTransport 7 rfl,
    h.2.2.2.1 failTransport 7 rfl,
    (h.2.2.2.2.1 7 7 1).2.1,
    (h.2.2.2.2.2.2.2.1 badCrcTransport
      [0x00, 0x00, 0x81, 0x00, 0x00, 0x00, 0x00, 0x00, 0x81] (.crc 1)
      rfl rfl (by decide)).1,
    rfl⟩

/-- C5: for every validated 3-byte data-ready response with status word
bytes `a`, `b`, `get_data_ready_status` returns exactly the boolean
"the low 11 bits (`status &&& 0x7FF`) of the big-endian status word are
non-zero". -/
theorem data_ready_iff_low11bits {E : Type} (t : Transport E) (a b c : Nat)
    (hw : t.writeRes SCD41_I2C_ADDR (u16BeBytes 0xE4B8) = .ok ())
    (hr : t.readRes SCD41_I2C_ADDR 3 = .ok [a, b, c])
    (hv : crc8.calculate [a, b] = c) :
    (get_data_ready_status t).1 =
      .ok (decide ((((a <<< 8) ||| b) &&& 0x7FF) ≠ 0)) := by
  have hval : @validate E [a, b, c] = .ok () := by
    simp [validate, validateChunks, hv]
  simp [get_data_ready_status, write_command_u16, read_words_with_crc, hw, hr, hval]

/-- Witness for C5: status 0x8000 (bytes 0x80, 0x00, valid checksum)
yields `false`, status 0x0001 yields `true`, and status 0x0000 yields
`false`. -/
theorem data_ready_iff_low11bits_witness :
    (get_data_ready_status (stubTransport [0x80, 0x00, 0xA2])).1 = .ok false ∧
    (get_data_ready_status (stubTransport [0x00, 0x01, 0xB0])).1 = .ok true ∧
    (get_data_ready_status (stubTransport [0x00, 0x00, 0x81])).1 = .ok false := by
  refine ⟨?_, ?_, ?_⟩
  · have h := data_ready_iff_low11bits (stubTransport [0x80, 0x00, 0xA2])
      0x80 0x00 0xA2 rfl rfl (by decide)
    rw [h]; decide
  · have h := data_ready_iff_low11bits (stubTransport [0x00, 0x01, 0xB0])
      0x00 0x01 0xB0 rfl rfl (by decide)
    rw [h]; decide
  · have h := data_ready_iff_low11bits (stubTransport [0x00, 0x00, 0x81])
      0x00 0x00 0x81 rfl rfl (by decide)
    rw [h]; decide

lemma read_serial_readLens {E : Type} (t : Transport E) :
    readLens (read_serial t).2 = [] ∨ readLens (read_serial t).2 = [9] := by
  rcases h1 : t.writeRes SCD41_I2C_ADDR (u16BeBytes 0x3682) with e | u
  · exact Or.inl (by simp [read_serial, write_command_u16, h1, readLens])
  · rcases h2 : t.readRes SCD41_I2C_ADDR 9 with e2 | buf
    · exact Or.inr (by
        simp [read_serial, write_command_u16, read_words_with_crc, h1, h2, readLens])
    · rcases h3 : @validate E buf with e3 | u3
      · exact Or.inr (by
          simp [read_serial, write_command_u16, read_words_with_crc, h1, h2, h3, readLens])
      · exact Or.inr (by
          simp [read_serial, write_command_u16, read_words_with_crc, h1, h2, h3, readLens])

lemma get_data_ready_status_readLens {E : Type} (t : Transport E) :
    readLens (get_data_ready_status t).2 = [] ∨
      readLens (get_data_ready_status t).2 = [3] := by
  rcases h1 : t.writeRes SCD41_I2C_ADDR (u16BeBytes 0xE4B8) with e | u
  · exact Or.inl (by simp [get_data_ready_status, write_command_u16, h1, readLens])
  · rcases h2 : t.readRes SCD41_I2C_ADDR 3 with e2 | buf
    · exact Or.inr (by
        simp [get_data_ready_status, write_command_u16, read_words_with_crc, h1, h2, readLens])
    · rcases h3 : @validate E buf with e3 | u3
      · exact Or.inr (by
          simp [get_data_ready_status, write_command_u16, read_words_with_crc, h1, h2, h3, readLens])
      · exact Or.inr (by
          simp [get_data_ready_status, write_command_u16, read_words_with_crc, h1, h2, h3, readLens])

lemma read_measurement_readLens {E : Type} (t : Transport E) :
    readLens (read_measurement t).2 = [] ∨
      readLens (read_measurement t).2 = [9] := by
  rcases h1 : t.writeRes SCD41_I2C_ADDR (u16BeBytes 0xEC05) with e | u
  · exact Or.inl (by simp [read_measurement, write_command_u16, h1, readLens])
  · rcases h2 : t.readRes SCD41_I2C_ADDR 9 with e2 | buf
    · exact Or.inr (by
        simp [read_measurement, write_command_u16, read_words_with_crc, h1, h2, readLens])
    · rcases h3 : @validate E buf with e3 | u3
      · exact Or.inr (by
          simp [read_measurement, write_command_u16, read_words_with_crc, h1, h2, h3, readLens])
      · exact Or.inr (by
          simp [read_measurement, write_command_u16, read_words_with_crc, h1, h2, h3, readLens])

lemma get_temperature_offset_readLens {E : Type} (t : Transport E) :
    readLens (get_temperature_offset t).2 = [] ∨
      readLens (get_temperature_offset t).2 = [3] := by
  rcases h1 : t.writeRes SCD41_I2C_ADDR (u16BeBytes 0x2318) with e | u
  · exact Or.inl (by simp [get_temperature_offset, write_command_u16, h1, readLens])
  · rcases h2 : t.readRes SCD41_I2C_ADDR 3 with e2 | buf
    · exact Or.inr (by
        simp [get_temperature_offset, write_command_u16, read_words_with_crc, h1, h2, readLens])
    · rcases h3 : @validate E buf with e3 | u3
      · exact Or.inr (by
          simp [get_temperature_offset, write_command_u16, read_words_with_crc, h1, h2, h3, readLens])
      · exact Or.inr (by
          simp [get_temperature_offset, write_command_u16, read_words_with_crc, h1, h2, h3, readLens])

/-- C8: a response buffer whose length is not a multiple of 3 bytes is
always rejected by decoding with the wrong-buffer-size error, whatever the
length; and every read the driver issues to the transport requests a
buffer length that is a multiple of 3 bytes (9 or 3). -/
theorem response_length_multiple_of_three {E : Type} :
    (∀ buf : List Nat, buf.length % 3 ≠ 0 →
      @validate E buf = .error .wrongBufferSize) ∧
    (∀ t : Transport E, ∀ n ∈ readLens (read_serial t).2, n % 3 = 0) ∧
    (∀ t : Transport E, ∀ n ∈ readLens (get_data_ready_status t).2, n % 3 = 0) ∧
    (∀ t : Transport E, ∀ n ∈ readLens (read_measurement t).2, n % 3 = 0) ∧
    (∀ t : Transport E, ∀ n ∈ readLens (get_temperature_offset t).2, n % 3 = 0) := by
  refine ⟨?_, ?_, ?_, ?_, ?_⟩
  · intro buf h
    simp [validate, h]
  · intro t n hn
    rcases read_serial_readLens t with h | h <;> rw [h] at hn <;> simp at hn <;> omega
  · intro t n hn
    rcases get_data_ready_status_readLens t with h | h <;> rw [h] at hn <;>
      simp at hn <;> omega
  · intro t n hn
    rcases read_measurement_readLens t with h | h <;> rw [h] at hn <;>
      simp at hn <;> omega
  · intro t n hn
    rcases get_temperature_offset_readLens t with h | h <;> rw [h] at hn <;>
      simp at hn <;> omega

/-- Witness for C8: a 1-byte buffer is rejected as wrong-sized, and the
concrete read lengths of a serial read (9) and a data-ready read (3) are
multiples of 3. -/
theorem response_length_multiple_of_three_witness :
    @validate Nat [0x55] = .error .wrongBufferSize ∧
    (9 : Nat) % 3 = 0 ∧ (3 : Nat) % 3 = 0 := by
  have h := @response_length_multiple_of_three Nat
  exact ⟨h.1 [0x55] (by decide),
    h.2.1 beefTransport 9 (by decide),
    h.2.2.1 (stubTransport [0x00, 0x01, 0xB0]) 3 (by decide)⟩

/-- C9: every driver operation is total — each returns either a success
value or an error value of the defined error kinds, for every transport
behaviour and (for `set_temperature_offset`) for every finite or non-finite
offset argument; in particular `set_temperature_offset` can only succeed or
fail with the write-error kind, it has no other outcome. -/
theorem ops_total_no_panic {E : Type} (t : Transport E) :
    ((wakeup t).1 = .ok () ∨ ∃ e, (wakeup t).1 = .error e) ∧
    ((start_periodic_measurement t).1 = .ok () ∨
      ∃ e, (start_periodic_measurement t).1 = .error e) ∧
    ((stop_periodic_measurement t).1 = .ok () ∨
      ∃ e, (stop_periodic_measurement t).1 = .error e) ∧
    ((reinit t).1 = .ok () ∨ ∃ e, (reinit t).1 = .error e) ∧
    ((∃ v, (read_serial t).1 = .ok v) ∨
      ∃ er, (read_serial t).1 = .error er) ∧
    ((∃ v, (get_data_ready_status t).1 = .ok v) ∨
      ∃ er, (get_data_ready_status t).1 = .error er) ∧
    ((∃ v, (read_measurement t).1 = .ok v) ∨
      ∃ er, (read_measurement t).1 = .error er) ∧
    ((∃ v, (get_temperature_offset t).1 = .ok v) ∨
      ∃ er, (get_temperature_offset t).1 = .error er) ∧
    (∀ offset : F32Val,
      (set_temperature_offset t offset).1 = .ok () ∨
      ∃ e, (set_temperature_offset t offset).1 = .error (.i2cWrite e)) := by
  refine ⟨?_, ?_, ?_, ?_, ?_, ?_, ?_, ?_, ?_⟩
  · rcases h : (wakeup t).1 with e | v
    · exact Or.inr ⟨e, rfl⟩
    · cases v; exact Or.inl rfl
  · rcases h : (start_periodic_measurement t).1 with e | v
    · exact Or.inr ⟨e, rfl⟩
    · cases v; exact Or.inl rfl
  · rcases h : (stop_periodic_measurement t).1 with e | v
    · exact Or.inr ⟨e, rfl⟩
    · cases v; exact Or.inl rfl
  · rcases h : (reinit t).1 with e | v
    · exact Or.inr ⟨e, rfl⟩
    · cases v; exact Or.inl rfl
  · rcases h : (read_serial t).1 with er | v
    · exact Or.inr ⟨er, rfl⟩
    · exact Or.inl ⟨v, rfl⟩
  · rcases h : (get_data_ready_status t).1 with er | v
    · exact Or.inr ⟨er, rfl⟩
    · exact Or.inl ⟨v, rfl⟩
  · rcases h : (read_measurement t).1 with er | v
    · exact Or.inr ⟨er, rfl⟩
    · exact Or.inl ⟨v, rfl⟩
  · rcases h : (get_temperature_offset t).1 with er | v
    · exact Or.inr ⟨er, rfl⟩
    · exact Or.inl ⟨v, rfl⟩
  · intro offset
    rcases h : t.writeRes SCD41_I2C_ADDR (setTempPayload offset) with e | u <;>
      simp [set_temperature_offset, h]

/-- C4: for every validated 9-byte serial response, `read_serial` returns
the value assembled big-endian from the 6 data bytes at buffer positions
0, 1 (most significant), 3, 4, 6, 7 — the checksum bytes at positions
2, 5, 8 contribute nothing — and that value is below 2^48. -/
theorem read_serial_assembles_48bit {E : Type} (t : Transport E)
    (b0 b1 b2 b3 b4 b5 b6 b7 b8 : Nat)
    (hw : t.writeRes SCD41_I2C_ADDR (u16BeBytes 0x3682) = .ok ())
    (hr : t.readRes SCD41_I2C_ADDR 9 = .ok [b0, b1, b2, b3, b4, b5, b6, b7, b8])
    (hv : @validate E [b0, b1, b2, b3, b4, b5, b6, b7, b8] = .ok ())
    (h1 : b1 < 256) (h3 : b3 < 256) (h4 : b4 < 256)
    (h6 : b6 < 256) (h7 : b7 < 256) :
    (read_serial t).1 =
      .ok (b0 * 2^40 + b1 * 2^32 + b3 * 2^24 + b4 * 2^16 + b6 * 2^8 + b7) ∧
    (b0 < 256 →
      b0 * 2^40 + b1 * 2^32 + b3 * 2^24 + b4 * 2^16 + b6 * 2^8 + b7 < 2^48) := by
  constructor
  · have e := assemble_serial_eq b0 b1 b3 b4 b6 b7 h1 h3 h4 h6 h7
    simp [read_serial, write_command_u16, read_words_with_crc, hw, hr, hv]
    exact e
  · intro h0
    omega

/-- Witness for C4: on the stub returning three 0xBEEF words with valid
checksums, `read_serial` returns 0xBEEFBEEFBEEF, which is below 2^48. -/
theorem read_serial_assembles_48bit_witness :
    (read_serial beefTransport).1 = .ok 0xBEEFBEEFBEEF ∧
    (0xBEEFBEEFBEEF : Nat) < 2^48 := by
  have h := read_serial_assembles_48bit beefTransport
    0xBE 0xEF 0x92 0xBE 0xEF 0x92 0xBE 0xEF 0x92
    rfl rfl (by decide) (by decide) (by decide) (by decide) (by decide) (by decide)
  constructor
  · rw [h.1]
    decide
  · have := h.2 (by decide)
    omega

/-- Counterexample for C1: the claim converts with divisor 65536, but on a
valid response whose temperature and humidity words are both 0xFFFF the
code returns exactly 130 °C and 100 % (the `f32` computation is exact
here), while the spec's written formulas with divisor 65536 do not equal
those values. -/
theorem read_measurement_div65536_counterexample :
    (read_measurement maxWordsTransport).1 =
      .ok { co2 := 0, temperature := 130, humidity := 100 } ∧
    spec_temperature 0xFFFF ≠ 130 ∧
    spec_humidity 0xFFFF ≠ 100 := by
  refine ⟨?_, ?_, ?_⟩
  · have hw : maxWordsTransport.writeRes SCD41_I2C_ADDR (u16BeBytes 0xEC05) =
        .ok () := rfl
    have hr : maxWordsTransport.readRes SCD41_I2C_ADDR 9 =
        .ok [0x00, 0x00, 0x81, 0xFF, 0xFF, 0xAC, 0xFF, 0xFF, 0xAC] := rfl
    have hv : @validate Nat [0x00, 0x00, 0x81, 0xFF, 0xFF, 0xAC, 0xFF, 0xFF, 0xAC] =
        .ok () := by decide
    simp [read_measurement, write_command_u16, read_words_with_crc, hw, hr, hv]
    norm_num
  · norm_num [spec_temperature]
  · norm_num [spec_humidity]

/-- C1 as amended: the divisor in both conversions is 65535, not 65536 —
for every validated 9-byte measurement response, the CO2 raw word is
returned directly with no scaling, temperature is
`rawB * 175 / 65535 - 45` and humidity is `rawC * 100 / 65535`; raw 0x0000
still yields exactly −45 °C and 0 %. -/
theorem read_measurement_conversions {E : Type} (t : Transport E)
    (b0 b1 b2 b3 b4 b5 b6 b7 b8 : Nat)
    (hw : t.writeRes SCD41_I2C_ADDR (u16BeBytes 0xEC05) = .ok ())
    (hr : t.readRes SCD41_I2C_ADDR 9 = .ok [b0, b1, b2, b3, b4, b5, b6, b7, b8])
    (hv : @validate E [b0, b1, b2, b3, b4, b5, b6, b7, b8] = .ok ())
    (h1 : b1 < 256) (h4 : b4 < 256) (h7 : b7 < 256) :
    (read_measurement t).1 = .ok
      { co2 := b0 * 256 + b1,
        temperature := ((b3 * 256 + b4 : Nat) : ℚ) * 175 / 65535 - 45,
        humidity := ((b6 * 256 + b7 : Nat) : ℚ) * 100 / 65535 } := by
  have w1 := byte_word_eq b0 b1 h1
  have w2 := byte_word_eq b3 b4 h4
  have w3 := byte_word_eq b6 b7 h7
  simp [read_measurement, write_command_u16, read_words_with_crc, hw, hr, hv,
    w1, w2, w3]

/-- Witness for C1 as amended: on the stub returning all-zero raw words
with valid checksums, `read_measurement` yields CO2 count 0, exactly
−45 °C and exactly 0 %. -/
theorem read_measurement_conversions_witness :
    (read_measurement zeroWordsTransport).1 =
      .ok { co2 := 0, temperature := -45, humidity := 0 } := by
  have h := read_measurement_conversions zeroWordsTransport
    0x00 0x00 0x81 0x00 0x00 0x81 0x00 0x00 0x81
    rfl rfl (by decide) (by decide) (by decide) (by decide)
  rw [h]
  norm_num

/-- C3: for every offset argument whose scaled value `f * 65535 / 175`
truncates to the 16-bit word `n`, `set_temperature_offset` performs exactly
one bus write, of 5 bytes: the command 0x241D as 2 big-endian bytes, the
word `n` in big-endian order, then the one checksum byte computed over
those 2 data bytes; no sleep is taken and no read is issued (the trace is
the single write). -/
theorem set_temperature_offset_wire_format {E : Type} (t : Transport E)
    (q : ℚ) (n : Nat)
    (hlo : (n : ℚ) ≤ q * 65535 / 175) (hhi : q * 65535 / 175 < n + 1)
    (hn : n < 65536) :
    (set_temperature_offset t (.finite q)).2 =
      [Action.write SCD41_I2C_ADDR
        ([0x24, 0x1D] ++ [n / 256, n % 256] ++
          [crc8.calculate [n / 256, n % 256]])] ∧
    ([0x24, 0x1D] ++ [n / 256, n % 256] ++
      [crc8.calculate [n / 256, n % 256]]).length = 5 := by
  have hcast : rustCastU16 (scaleOffset (.finite q)) = n := by
    simp only [scaleOffset, rustCastU16]
    by_cases hle : q * 65535 / 175 ≤ 0
    · rw [if_pos hle]
      have hq : (n : ℚ) ≤ 0 := le_trans hlo hle
      have : n ≤ 0 := by exact_mod_cast hq
      omega
    · rw [if_neg hle]
      have hfloor : ⌊q * 65535 / 175⌋ = (n : ℤ) := by
        rw [Int.floor_eq_iff]
        exact ⟨by push_cast; exact hlo, by push_cast; exact hhi⟩
      rw [hfloor, Int.toNat_natCast]
      omega
  have hbe : u16BeBytes n = [n / 256, n % 256] := by
    have : n / 256 < 256 := by omega
    simp [u16BeBytes, Nat.mod_eq_of_lt this]
  have htr : ∀ (o : F32Val), (set_temperature_offset t o).2 =
      [Action.write SCD41_I2C_ADDR (setTempPayload o)] := by
    intro o
    rcases hw : t.writeRes SCD41_I2C_ADDR (setTempPayload o) with e | u <;>
      simp [set_temperature_offset, hw]
  constructor
  · rw [htr]
    rw [setTempPayload, hcast, hbe, show u16BeBytes 0x241D = [0x24, 0x1D] from rfl]
  · simp

/-- Witness for C3: setting a 4 °C offset scales to 4 × 65535 / 175 ≈
1497.94, truncates to raw word 1497, and writes the 5 bytes 0x24, 0x1D,
0x05, 0xD9 and the checksum over 0x05, 0xD9. -/
theorem set_temperature_offset_wire_format_witness :
    ((1497 : Nat) : ℚ) ≤ 4 * 65535 / 175 ∧
    (4 : ℚ) * 65535 / 175 < (1497 : Nat) + 1 ∧
    (set_temperature_offset (stubTransport []) (.finite 4)).2 =
      [Action.write SCD41_I2C_ADDR
        ([0x24, 0x1D] ++ [1497 / 256, 1497 % 256] ++
          [crc8.calculate [1497 / 256, 1497 % 256]])] := by
  refine ⟨by norm_num, by norm_num, ?_⟩
  exact (set_temperature_offset_wire_format (stubTransport []) 4 1497
    (by norm_num) (by norm_num) (by norm_num)).1

end Scd41
